/-
Verification of the intervals-mcp-server analytics core.

Shallow embedding of the Python source under src/intervals_mcp_server/:
numeric values are modelled as rationals (ℚ); Python `None`-able values as
`Option ℚ`; Python truthiness of a numeric x is `x ≠ 0` and of an optional
value `o` is `o = some v ∧ v ≠ 0`; dates are ISO strings where string order
matters (baselines, phase markers) and integer day indices where only
day-stepping matters (the daily history tier).  `statistics.median` and
Python's stable `sorted` are modelled with `List.insertionSort`, which is
stable.  Python `round` (round-half-to-even) is modelled exactly on ℚ.
-/
import Mathlib

namespace IntervalsMCP

/-- Python `round` to an integer: round half to even (banker's rounding),
modelled exactly over ℚ. -/
def pyRoundInt (x : ℚ) : ℤ :=
  let f := ⌊x⌋
  let r := x - f
  if r < 1/2 then f
  else if 1/2 < r then f + 1
  else if f % 2 = 0 then f else f + 1

/-- Python `round(x, d)` over ℚ. -/
def pyRound (x : ℚ) (d : ℕ) : ℚ :=
  (pyRoundInt (x * 10 ^ d) : ℚ) / 10 ^ d

/-- Python truthiness of an optional numeric field: present and non-zero. -/
def truthyQ (o : Option ℚ) : Bool :=
  match o with
  | some v => v ≠ 0
  | none => false

/-- Python `a or b` on two optional numerics: `a` if truthy, else `b`. -/
def pyOrOpt (a b : Option ℚ) : Option ℚ :=
  match a with
  | some v => if v ≠ 0 then some v else b
  | none => b

/- ===== analytics/recovery.py ===== -/

/-- Function `calculate_recovery_index` from analytics/recovery.py. -/
def calculate_recovery_index (hrv_today hrv_baseline rhr_today rhr_baseline : ℚ) : ℚ :=
  if hrv_baseline = 0 ∨ rhr_baseline = 0 then 0
  else
    let hrv_ratio := hrv_today / hrv_baseline
    let rhr_ratio := rhr_today / rhr_baseline
    if rhr_ratio = 0 then 0 else hrv_ratio / rhr_ratio

/-- Function `calculate_acwr` from analytics/recovery.py. -/
def calculate_acwr (atl ctl : ℚ) : ℚ :=
  if ctl = 0 then 0 else atl / ctl

/- ===== analytics/load.py ===== -/

/-- Python `statistics.mean` over ℚ. -/
def mean (l : List ℚ) : ℚ := l.sum / l.length

/-- Sample variance (the square of `statistics.stdev`), n − 1 denominator. -/
def sampleVar (l : List ℚ) : ℚ :=
  (l.map (fun x => (x - mean l) ^ 2)).sum / ((l.length : ℚ) - 1)

/-- Function `calculate_monotony` from analytics/load.py.  The source filters with
Python truthiness `load and load > 0`, which for numerics is `0 < load`;
its guard `std_dev == 0` is expressed as `sampleVar = 0`, equivalent since
`stdev = sqrt (sampleVar)` vanishes exactly on a vanishing variance. -/
noncomputable def calculate_monotony (daily_loads : List ℚ) : ℝ :=
  if daily_loads.length < 2 then 0
  else
    let loads := daily_loads.filter (fun load => 0 < load)
    if loads.length < 2 then 0
    else if sampleVar loads = 0 then 0
    else (mean loads : ℝ) / Real.sqrt (sampleVar loads)

/-- Function `calculate_strain` from analytics/load.py. -/
def calculate_strain (monotony mean_load : ℚ) : ℚ := monotony * mean_load

/-- Function `calculate_load_recovery_ratio` from analytics/load.py. -/
def calculate_load_recovery_ratio (weekly_load recovery_index : ℚ) : ℚ :=
  if recovery_index = 0 then 0 else weekly_load / recovery_index

/-- Function `calculate_consistency_index` from analytics/load.py. -/
def calculate_consistency_index (sessions_completed sessions_planned : ℕ) : ℚ :=
  if sessions_planned = 0 then 0
  else (sessions_completed : ℚ) / (sessions_planned : ℚ)

/- ===== analytics/durability.py ===== -/

/-- Function `calculate_efficiency_factor` from analytics/durability.py. -/
def calculate_efficiency_factor (normalized_power average_hr : ℚ) : ℚ :=
  if average_hr = 0 then 0 else normalized_power / average_hr

/-- Function `calculate_variability_index` from analytics/durability.py. -/
def calculate_variability_index (normalized_power average_power : ℚ) : ℚ :=
  if average_power = 0 then 0 else normalized_power / average_power

/-- Helper `_calculate_average_pw_hr_ratio` from analytics/durability.py:
mean of power/HR over samples where both are positive. -/
def avgPwHrRatio (power_data hr_data : List ℚ) : ℚ :=
  let ratios := (power_data.zip hr_data).filterMap
    (fun s => if 0 < s.1 ∧ 0 < s.2 then some (s.1 / s.2) else none)
  if ratios = [] then 0 else ratios.sum / ratios.length

/-- Function `calculate_decoupling` from analytics/durability.py. -/
def calculate_decoupling (power_stream hr_stream : List ℚ) : ℚ × ℚ × ℚ :=
  if power_stream = [] ∨ hr_stream = [] then (0, 0, 0)
  else if power_stream.length ≠ hr_stream.length then (0, 0, 0)
  else if power_stream.length < 3600 then (0, 0, 0)
  else
    let midpoint := power_stream.length / 2
    let first_half_ratio := avgPwHrRatio (power_stream.take midpoint) (hr_stream.take midpoint)
    let second_half_ratio := avgPwHrRatio (power_stream.drop midpoint) (hr_stream.drop midpoint)
    if first_half_ratio = 0 then (0, 0, 0)
    else (((second_half_ratio - first_half_ratio) / first_half_ratio) * 100,
          first_half_ratio, second_half_ratio)

/- ===== analytics/zones.py ===== -/

/-- Lookup `zone_times.get(k, 0)` on an association list of zone seconds. -/
def zget (zone_times : List (ℕ × ℤ)) (k : ℕ) : ℤ :=
  match zone_times.find? (fun p => p.1 == k) with
  | some p => p.2
  | none => 0

/-- Function `calculate_polarization_index` from analytics/zones.py. -/
def calculate_polarization_index (zone_times : List (ℕ × ℤ)) : ℚ :=
  let z1_time := zget zone_times 1 + zget zone_times 2
  let z2_time := zget zone_times 3 + zget zone_times 4
  let z3_time := zget zone_times 5 + zget zone_times 6 + zget zone_times 7
  if z2_time = 0 then 0 else ((z1_time : ℚ) + (z3_time : ℚ)) / (z2_time : ℚ)

/- ===== analytics/phase_detection.py ===== -/

/-- Function `detect_training_phase` from analytics/phase_detection.py. -/
def detect_training_phase (ctl atl tsb : ℚ) (ctl_7d_ago : Option ℚ := none)
    (recent_load_trend : Option String := none) : String :=
  let acwr := if 0 < ctl then atl / ctl else 0
  let ctl_trend : Option String :=
    match ctl_7d_ago with
    | some c7 =>
      if 0 < c7 then
        let ctl_change_pct := ((ctl - c7) / c7) * 100
        if 5 < ctl_change_pct then some "increasing"
        else if ctl_change_pct < -5 then some "decreasing"
        else some "stable"
      else none
    | none => none
  -- recent_load_trend is accepted but never read by the source
  let _ := recent_load_trend
  if 15 < tsb ∧ acwr < 0.7 then "Recovery"
  else if 5 < tsb ∧ acwr < 0.8 ∧
      (ctl_trend = some "decreasing" ∨ ctl_trend = some "stable") then "Taper"
  else if 80 < ctl ∧ 0.9 < acwr ∧ (-10 < tsb ∧ tsb < 5) then "Peak"
  else if ctl_trend = some "increasing" ∧ 0.8 ≤ acwr ∧ acwr ≤ 1.2 then "Build"
  else if ctl < 60 then "Base"
  else "Build"

/- ===== analytics/baselines.py ===== -/

/-- Python `statistics.median` over ℚ: sort ascending, middle element for odd
length, mean of the two middle elements for even length.  (The Python
function raises on an empty list; callers here only use it on non-empty
lists, where the `getD` default is never reached.) -/
def median (l : List ℚ) : ℚ :=
  let s := l.insertionSort (· ≤ ·)
  let n := l.length
  if n % 2 = 1 then s.getD (n / 2) 0
  else (s.getD (n / 2 - 1) 0 + s.getD (n / 2) 0) / 2

/-- Function `filter_outliers` from analytics/baselines.py (MAD outlier rejection). -/
def filter_outliers (values : List ℚ) (threshold : ℚ := 3) : List ℚ :=
  if values.length < 3 then values
  else
    let med := median values
    let abs_deviations := values.map (fun v => |v - med|)
    let mad := median abs_deviations
    if mad = 0 then
      values.filter (fun v => |v - med| ≤ threshold * med)
    else
      let mad_scaled := mad * 1.4826
      values.filter (fun v => |v - med| / mad_scaled ≤ threshold)

/-- A date-keyed record as consumed by `calculate_baseline`: the `id` date
string plus named numeric fields (a key mapped to `none` models both a
missing key and an explicit Python `None` value, which the source treats
identically when extracting values). -/
structure RRec where
  id : String
  fields : List (String × Option ℚ)
deriving DecidableEq, Repr

/-- Field extraction `field in item and item[field] is not None`. -/
def lookupField (r : RRec) (field : String) : Option ℚ :=
  match r.fields.find? (fun p => p.1 == field) with
  | some p => p.2
  | none => none

/-- The part of `calculate_baseline` after the end-date cut: sort
descending by date (Python's stable `sorted(..., reverse=True)` on the
date key is `insertionSort` with the reversed non-strict order, which is
stable the same way), window, extract, outlier-filter, average. -/
def baselineCore (data1 : List RRec) (field : String)
    (baseline_days : ℕ) (filter_outliers_enabled : Bool) : ℚ :=
  let sorted_data := data1.insertionSort (fun a b => b.id ≤ a.id)
  let window_data := sorted_data.take baseline_days
  let values := window_data.filterMap (fun r => lookupField r field)
  if values = [] then 0
  else
    let values2 := if filter_outliers_enabled ∧ 3 ≤ values.length
      then filter_outliers values 3 else values
    if values2 = [] then 0 else values2.sum / values2.length

/-- Function `calculate_baseline` from analytics/baselines.py. -/
def calculate_baseline (data : List RRec) (field : String)
    (baseline_days : ℕ := 7) (end_date : Option String := none)
    (filter_outliers_enabled : Bool := true) : ℚ :=
  if data = [] then 0
  else
    baselineCore
      (match end_date with
       | some ed => data.filter (fun r => decide (r.id < ed))
       | none => data)
      field baseline_days filter_outliers_enabled

/- ===== analytics/tid_drift.py ===== -/

/-- A TID distribution as a dict from zone name to percentage; a Python
falsy (empty) dict is the empty list. -/
def tget (tid : List (String × ℚ)) (k : String) : ℚ :=
  match tid.find? (fun p => p.1 == k) with
  | some p => p.2
  | none => 0

/-- Function `detect_tid_drift` from analytics/tid_drift.py. -/
def detect_tid_drift (tid_7d tid_28d : List (String × ℚ))
    (threshold_pct : ℚ := 15) : String :=
  if tid_7d = [] ∨ tid_28d = [] then "insufficient_data"
  else
    let z1_diff := |tget tid_7d "Z1" - tget tid_28d "Z1"|
    let z2_diff := tget tid_7d "Z2" - tget tid_28d "Z2"
    let z3_diff := |tget tid_7d "Z3" - tget tid_28d "Z3"|
    if threshold_pct < z2_diff then "acute_depolarization"
    else if threshold_pct < max z1_diff (max |z2_diff| z3_diff) then "shifting"
    else "consistent"

/- ===== analytics/alerts.py ===== -/

/-- An alert value: numeric or categorical (the `value`/`threshold` slots
hold a float or a string in the source). -/
inductive AlertValue where
  | num (q : ℚ)
  | str (s : String)
deriving DecidableEq, Repr

/-- The `Alert` record from analytics/alerts.py (as its dict form). -/
structure Alert where
  severity : String
  category : String
  metric : String
  value : AlertValue
  threshold : AlertValue
  message : String
deriving DecidableEq, Repr

/-- The metrics map read by `generate_alerts`; a missing key is `none`. -/
structure Metrics where
  recovery_index : Option ℚ := none
  acwr : Option ℚ := none
  monotony : Option ℚ := none
  strain : Option ℚ := none
  polarization_index_7d : Option ℚ := none
  tid_drift : Option String := none
  durability_7d_mean_decoupling : Option ℚ := none
  consistency_index : Option ℚ := none
deriving DecidableEq, Repr

/-- The alerts appended by `generate_alerts` before sorting, in its exact
rule-evaluation order. -/
def ruleAlerts (metrics : Metrics) : List Alert :=
  (match metrics.recovery_index with
   | some ri =>
     if ri < 0.6 then
       [⟨"alarm", "recovery", "recovery_index", .num (pyRound ri 2), .num 0.6,
         "Recovery Index critically low - deload required"⟩]
     else if ri < 0.8 then
       [⟨"warning", "recovery", "recovery_index", .num (pyRound ri 2), .num 0.8,
         "Recovery Index low - consider reducing intensity"⟩]
     else []
   | none => []) ++
  (match metrics.acwr with
   | some acwr =>
     if acwr < 0.8 then
       [⟨"warning", "load", "acwr", .num (pyRound acwr 2), .num 0.8,
         "ACWR low - training load may be insufficient"⟩]
     else if 1.5 < acwr then
       [⟨"alarm", "load", "acwr", .num (pyRound acwr 2), .num 1.5,
         "ACWR critically high - high injury risk"⟩]
     else if 1.3 < acwr then
       [⟨"warning", "load", "acwr", .num (pyRound acwr 2), .num 1.3,
         "ACWR elevated - over-reaching risk"⟩]
     else []
   | none => []) ++
  (match metrics.monotony with
   | some monotony =>
     if 2.5 < monotony then
       [⟨"alarm", "load", "monotony", .num (pyRound monotony 2), .num 2.5,
         "Training monotony too high - add variety"⟩]
     else if 2.3 < monotony then
       [⟨"warning", "load", "monotony", .num (pyRound monotony 2), .num 2.3,
         "Training monotony approaching limit"⟩]
     else []
   | none => []) ++
  (match metrics.strain with
   | some strain =>
     if 3500 < strain then
       [⟨"alarm", "load", "strain", .num (pyRound strain 1), .num 3500,
         "Training strain critically high"⟩]
     else []
   | none => []) ++
  (match metrics.polarization_index_7d with
   | some pi7 =>
     if pi7 < 1.5 then
       [⟨"warning", "distribution", "polarization_index_7d", .num (pyRound pi7 2), .num 1.5,
         "Training becoming threshold-heavy (7d) - consider more polarization"⟩]
     else []
   | none => []) ++
  (if metrics.tid_drift = some "acute_depolarization" then
     [⟨"warning", "distribution", "tid_drift", .str "acute_depolarization",
       .str "acute_depolarization",
       "Acute depolarization detected - high Z2 load this week"⟩]
   else []) ++
  (match metrics.durability_7d_mean_decoupling with
   | some dec7 =>
     if 10 < |dec7| then
       [⟨"warning", "durability", "durability_7d_mean_decoupling",
         .num (pyRound |dec7| 1), .num 10,
         "Poor aerobic durability (7d avg) - focus on aerobic base building"⟩]
     else []
   | none => []) ++
  (match metrics.consistency_index with
   | some consistency =>
     if consistency < 0.5 then
       [⟨"warning", "consistency", "consistency_index",
         .num (pyRound consistency 2), .num 0.5,
         "Low training consistency - aim for more regular sessions"⟩]
     else []
   | none => [])

/-- The `severity_order` mapping from `generate_alerts`. -/
def severity_order (s : String) : ℕ :=
  if s = "alarm" then 0 else if s = "warning" then 1 else 2

/-- Function `generate_alerts` from analytics/alerts.py.  Python's `sorted` is
stable; sorting a list by the key `severity_order` concatenates, in
order, the subsequences with key 0, 1 and 2, each in original order —
which is written out directly here. -/
def generate_alerts (metrics : Metrics) : List Alert :=
  let alerts := ruleAlerts metrics
  alerts.filter (fun a => severity_order a.severity == 0) ++
  alerts.filter (fun a => severity_order a.severity == 1) ++
  alerts.filter (fun a => severity_order a.severity == 2)

/- ===== utils/history_builder.py : build_daily_tier ===== -/

/-- A wellness record as read by `build_daily_tier`.  Its `id` date is
modelled as an integer day index: `strftime("%Y-%m-%d")` of datetimes a
whole number of days apart yields distinct, order-preserving date strings,
so equality of the formatted strings is equality of day indices. -/
structure DayWellness where
  id : ℤ
  ctl : Option ℚ := none
  atl : Option ℚ := none
  tsb : Option ℚ := none
  rampRate : Option ℚ := none
  hrv : Option ℚ := none
  hrvRMSSD : Option ℚ := none
  restingHR : Option ℚ := none
  weight : Option ℚ := none
  sleepSecs : Option ℚ := none
deriving DecidableEq, Repr

/-- An activity record as read by `build_daily_tier`; `start_date_local`
is the day index of the first 10 characters of the local start stamp. -/
structure Activity where
  start_date_local : ℤ
  training_load : Option ℚ := none
  icu_training_load : Option ℚ := none
deriving DecidableEq, Repr

/-- Activity load `a.get("training_load") or a.get("icu_training_load") or 0`. -/
def actLoad (a : Activity) : ℚ :=
  match pyOrOpt a.training_load a.icu_training_load with
  | some v => if v ≠ 0 then v else 0
  | none => 0

/-- One entry of the 90-day daily tier. -/
structure DailyEntry where
  date : ℤ
  ctl : Option ℚ
  atl : Option ℚ
  tsb : Option ℚ
  ramp_rate : Option ℚ
  tss : ℚ
  activities_count : ℕ
  hrv : Option ℚ
  rhr : Option ℚ
  weight : Option ℚ
  sleep_hours : Option ℚ
  phase : Option String
deriving DecidableEq, Repr

/-- Default entry used only as the `getD` fallback in statements. -/
def emptyEntry : DailyEntry :=
  ⟨0, none, none, none, none, 0, 0, none, none, none, none, none⟩

/-- The phase slot of a daily entry: the source guards with Python
truthiness `day_wellness.get("ctl") and ... get("atl") and ... get("tsb")`
(`day_wellness` is the empty dict when no record matches the day). -/
def dayPhase (dw : Option DayWellness) : Option String :=
  match dw with
  | none => none
  | some w =>
    match w.ctl, w.atl, w.tsb with
    | some c, some a, some t =>
      if c ≠ 0 ∧ a ≠ 0 ∧ t ≠ 0 then some (detect_training_phase c a t) else none
    | _, _, _ => none

/-- One iteration of the `build_daily_tier` loop for day index `date`. -/
def dailyEntryFor (activities : List Activity) (wellness : List DayWellness)
    (date : ℤ) : DailyEntry :=
  let day_wellness := wellness.find? (fun w => w.id == date)
  let day_activities := activities.filter (fun a => a.start_date_local == date)
  let daily_tss := (day_activities.map actLoad).sum
  { date := date
    ctl := (day_wellness.bind (·.ctl)).map (fun c => pyRound c 1)
    atl := (day_wellness.bind (·.atl)).map (fun a => pyRound a 1)
    tsb :=
      match day_wellness.bind (·.ctl), day_wellness.bind (·.atl) with
      | some c, some a => some (pyRound (c - a) 1)
      | _, _ => none
    ramp_rate := (day_wellness.bind (·.rampRate)).map (fun r => pyRound r 2)
    tss := if 0 < daily_tss then daily_tss else 0
    activities_count := day_activities.length
    hrv :=
      match day_wellness with
      | some w => pyOrOpt w.hrv w.hrvRMSSD
      | none => none
    rhr := day_wellness.bind (·.restingHR)
    weight := day_wellness.bind (·.weight)
    sleep_hours :=
      match day_wellness.bind (·.sleepSecs) with
      | some s => if s ≠ 0 then some (pyRound (s / 3600) 1) else none
      | none => none
    phase := dayPhase day_wellness }

/-- Function `build_daily_tier` from utils/history_builder.py; `today` is the day
index of `datetime.now()`. -/
def build_daily_tier (activities : List Activity) (wellness : List DayWellness)
    (today : ℤ) (days : ℕ := 90) : List DailyEntry :=
  (List.range days).map
    (fun (i : ℕ) => dailyEntryFor activities wellness (today - ((days : ℤ) - (i : ℤ) - 1)))

/- ===== utils/history_builder.py : detect_phase_markers ===== -/

/-- A wellness record as read by `detect_phase_markers`: the `id` date
string (the empty string models both a missing `id` key and an empty
value, which Python treats identically as falsy) plus CTL/ATL. -/
structure PRec where
  id : String
  ctl : Option ℚ := none
  atl : Option ℚ := none
deriving DecidableEq, Repr

/-- A phase marker entry. -/
structure Marker where
  start_date : String
  end_date : String
  phase : String
deriving DecidableEq, Repr

/-- Loop state of `detect_phase_markers`: `current_phase`, `phase_start`
and the accumulated markers.  `none` models Python `None`. -/
structure PMState where
  current_phase : Option String
  phase_start : Option String
  markers : List Marker
deriving DecidableEq, Repr

/-- Python truthiness of an optional string: present and non-empty. -/
def truthyS (o : Option String) : Bool :=
  match o with
  | some s => s ≠ ""
  | none => false

/-- One iteration of the `detect_phase_markers` loop. -/
def pmStep (s : PMState) (entry : PRec) : PMState :=
  match entry.ctl, entry.atl with
  | some c, some a =>
    if c ≠ 0 ∧ a ≠ 0 then
      let phase := detect_training_phase c a (c - a)
      if some phase ≠ s.current_phase then
        let markers' :=
          if truthyS s.current_phase ∧ truthyS s.phase_start then
            s.markers ++ [⟨s.phase_start.getD "", entry.id, s.current_phase.getD ""⟩]
          else s.markers
        ⟨some phase, some entry.id, markers'⟩
      else s
    else s
  | _, _ => s

/-- Function `detect_phase_markers` from utils/history_builder.py (the `activities`
argument is accepted but never read by the source). -/
def detect_phase_markers (wellness : List PRec)
    (activities : List Activity) : List Marker :=
  let _ := activities
  let s := wellness.foldl pmStep ⟨none, none, []⟩
  match wellness.getLast? with
  | some lastE =>
    if truthyS s.current_phase ∧ truthyS s.phase_start then
      s.markers ++ [⟨s.phase_start.getD "", lastE.id, s.current_phase.getD ""⟩]
    else s.markers
  | none => s.markers

/-- The adjacency relation the phase-marker list should satisfy:
consecutive markers carry different phases and chain end-to-start. -/
def markerRel (m1 m2 : Marker) : Prop :=
  m1.phase ≠ m2.phase ∧ m1.end_date = m2.start_date

/-- Invariant of the `detect_phase_markers` loop state: either nothing has
been classified yet, or there is an open run with a non-empty phase label
and start date, the emitted markers chain correctly, and the last emitted
marker ends where the open run starts with a different phase. -/
def PMInv (s : PMState) : Prop :=
  (s.current_phase = none ∧ s.phase_start = none ∧ s.markers = []) ∨
  (∃ cp ps, s.current_phase = some cp ∧ s.phase_start = some ps ∧
    cp ≠ "" ∧ ps ≠ "" ∧ List.Chain' markerRel s.markers ∧
    (∀ m, s.markers.getLast? = some m → m.end_date = ps ∧ m.phase ≠ cp))

/- ===================== Theorems ===================== -/

/-- All elements of a non-empty list being equal to `c` forces `median = c`. -/
theorem median_all_eq (l : List ℚ) (c : ℚ) (hne : l ≠ []) (h : ∀ x ∈ l, x = c) :
    median l = c := by
  have hmem : ∀ x ∈ l.insertionSort (· ≤ ·), x = c := fun x hx =>
    h x ((List.mem_insertionSort _).mp hx)
  have hlen : (l.insertionSort (· ≤ ·)).length = l.length :=
    List.length_insertionSort _ _
  have hpos : 0 < l.length := List.length_pos.mpr hne
  have hgd : ∀ i, i < l.length → (l.insertionSort (· ≤ ·)).getD i 0 = c := by
    intro i hi
    have hi' : i < (l.insertionSort (· ≤ ·)).length := by rw [hlen]; exact hi
    rw [List.getD_eq_getElem?_getD, List.getElem?_eq_getElem hi', Option.getD_some]
    exact hmem _ (List.getElem_mem hi')
  simp only [median]
  by_cases hpar : l.length % 2 = 1
  · rw [if_pos hpar]
    exact hgd _ (Nat.div_lt_self hpos one_lt_two)
  · rw [if_neg hpar, hgd _ (by omega), hgd _ (by omega)]
    ring

/-- C1 (counterexample): `detect_training_phase(ctl=100, atl=70, tsb=30)`
with no 7-day-ago CTL does not return "Recovery" — ACWR is exactly 0.7 and
the Recovery rule requires ACWR strictly below 0.7. -/
theorem detect_training_phase_c1_counterexample :
    detect_training_phase 100 70 30 none none ≠ "Recovery" := by
  norm_num [detect_training_phase] <;> simp

/-- C1 (amended): `detect_training_phase(ctl=100, atl=70, tsb=30)` with no
7-day-ago CTL returns "Build": ACWR = 70/100 = 0.7 fails the strict
`ACWR < 0.7` Recovery test, no later rule matches, and the final default
"Build" is returned. -/
theorem detect_training_phase_c1_build :
    detect_training_phase 100 70 30 none none = "Build" ∧
      (70 : ℚ) / 100 = 0.7 ∧ ¬ ((0.7 : ℚ) < 0.7) :=
  ⟨by norm_num [detect_training_phase] <;> simp, by norm_num, by norm_num⟩

/-- C7: `filter_outliers([40,42,38,255,45,47,40])` at the default
threshold 3.0 removes exactly the value 255 and keeps the other six
values in order. -/
theorem filter_outliers_c7_example :
    filter_outliers [40, 42, 38, 255, 45, 47, 40] 3 = [40, 42, 38, 45, 47, 40] := by
  norm_num [filter_outliers, median, List.insertionSort, List.orderedInsert,
    List.filter_cons, abs]

/-- C6 (counterexample): on the constant list `[-1,-1,-1]` (length ≥ 3, all
values equal, MAD = 0) `filter_outliers` at the default threshold removes
every element instead of returning the list unchanged: the fallback keeps
values within `threshold × median = -3` of the median, an empty window. -/
theorem filter_outliers_c6_counterexample :
    filter_outliers [-1, -1, -1] 3 = [] ∧ ([-1, -1, -1] : List ℚ) ≠ [] := by
  constructor
  · norm_num [filter_outliers, median, List.insertionSort, List.orderedInsert,
      List.filter_cons, abs]
  · simp

/-- C6 (amended): for every list of length ≥ 3 whose values all equal a
non-negative constant (and any non-negative threshold, in particular the
default 3.0), MAD is 0 and the fallback keeps every value, so
`filter_outliers` returns the list unchanged. -/
theorem filter_outliers_c6_constant (l : List ℚ) (c t : ℚ) (hc : 0 ≤ c)
    (ht : 0 ≤ t) (hlen : 3 ≤ l.length) (hall : ∀ x ∈ l, x = c) :
    filter_outliers l t = l := by
  have hne : l ≠ [] := by
    intro hl
    rw [hl] at hlen
    simp at hlen
  have hmed : median l = c := median_all_eq l c hne hall
  have hdevs : ∀ y ∈ l.map (fun v => |v - median l|), y = (0 : ℚ) := by
    intro y hy
    obtain ⟨x, hx, rfl⟩ := List.mem_map.mp hy
    rw [hall x hx, hmed, sub_self, abs_zero]
  have hmapne : l.map (fun v => |v - median l|) ≠ [] := by
    simpa using hne
  have hmad : median (l.map (fun v => |v - median l|)) = 0 :=
    median_all_eq _ 0 hmapne hdevs
  simp only [filter_outliers]
  rw [if_neg (by omega), if_pos hmad, List.filter_eq_self]
  intro a ha
  rw [hall a ha, hmed]
  simp only [sub_self, abs_zero, decide_eq_true_eq]
  exact mul_nonneg ht hc

/-- Witness for C6 (amended) at the concrete constant list `[2,2,2]` with
threshold 5. -/
theorem filter_outliers_c6_constant_witness :
    filter_outliers [2, 2, 2] 5 = [2, 2, 2] :=
  filter_outliers_c6_constant [2, 2, 2] 2 5 (by norm_num) (by norm_num)
    (by norm_num) (by intro x hx; simp at hx; exact hx)

/-- C3: `calculate_baseline` averages only records strictly before
`end_date`: removing every record dated exactly `end_date` from the input
never changes the result (so such a record never contributes), and in
particular a baseline for end date "2026-02-21" over records dated
"2026-02-21" (value 100) and "2026-02-20" (value 40) sees only the 40. -/
theorem calculate_baseline_c3 :
    (∀ (data : List RRec) (field : String) (n : ℕ) (ed : String) (fe : Bool),
      calculate_baseline data field n (some ed) fe =
        calculate_baseline (data.filter (fun r => decide (¬ r.id = ed)))
          field n (some ed) fe) ∧
    calculate_baseline
      [⟨"2026-02-21", [("hrv", some 100)]⟩, ⟨"2026-02-20", [("hrv", some 40)]⟩]
      "hrv" 7 (some "2026-02-21") true = 40 := by
  constructor
  · intro data field n ed fe
    have key : (data.filter (fun r => decide (¬ r.id = ed))).filter
          (fun r => decide (r.id < ed)) =
        data.filter (fun r => decide (r.id < ed)) := by
      rw [List.filter_filter]
      apply List.filter_congr
      intro a _
      by_cases h : a.id < ed
      · simp [h, ne_of_lt h]
      · simp [h]
    by_cases hdata : data = []
    · subst hdata
      simp [calculate_baseline]
    · by_cases hfil : data.filter (fun r => decide (¬ r.id = ed)) = []
      · have hinner : data.filter (fun r => decide (r.id < ed)) = [] := by
          rw [← key, hfil, List.filter_nil]
        simp only [calculate_baseline]
        rw [if_neg hdata, if_pos hfil, hinner]
        simp [baselineCore]
      · simp only [calculate_baseline]
        rw [if_neg hdata, if_neg hfil]
        rw [key]
  · simp +decide [calculate_baseline, baselineCore, lookupField,
      List.insertionSort, List.orderedInsert, List.filter_cons]

/-- C5: at the default 15.0 threshold, `detect_tid_drift` returns
"insufficient_data" whenever either distribution is absent (empty); for
non-empty inputs it returns "acute_depolarization" exactly when the signed
Z2 difference (7d − 28d) exceeds 15, otherwise "shifting" exactly when the
maximum absolute zone difference exceeds 15, otherwise "consistent"; and
the distributions Z1=60/Z2=10/Z3=30 vs Z1=75/Z2=20/Z3=5 classify as
"shifting". -/
theorem detect_tid_drift_c5 :
    (∀ t7 t28 : List (String × ℚ), (t7 = [] ∨ t28 = []) →
      detect_tid_drift t7 t28 = "insufficient_data") ∧
    (∀ t7 t28 : List (String × ℚ), t7 ≠ [] → t28 ≠ [] →
      ((detect_tid_drift t7 t28 = "acute_depolarization" ↔
          15 < tget t7 "Z2" - tget t28 "Z2") ∧
       (detect_tid_drift t7 t28 = "shifting" ↔
          ¬ (15 < tget t7 "Z2" - tget t28 "Z2") ∧
          15 < max |tget t7 "Z1" - tget t28 "Z1"|
            (max |tget t7 "Z2" - tget t28 "Z2"| |tget t7 "Z3" - tget t28 "Z3"|)) ∧
       (detect_tid_drift t7 t28 = "consistent" ↔
          ¬ (15 < tget t7 "Z2" - tget t28 "Z2") ∧
          ¬ (15 < max |tget t7 "Z1" - tget t28 "Z1"|
            (max |tget t7 "Z2" - tget t28 "Z2"| |tget t7 "Z3" - tget t28 "Z3"|))))) ∧
    detect_tid_drift [("Z1", 60), ("Z2", 10), ("Z3", 30)]
      [("Z1", 75), ("Z2", 20), ("Z3", 5)] = "shifting" := by
  refine ⟨?_, ?_, ?_⟩
  · intro t7 t28 h
    simp only [detect_tid_drift]
    rw [if_pos h]
  · intro t7 t28 h7 h28
    simp only [detect_tid_drift]
    rw [if_neg (by simp [h7, h28])]
    split_ifs with h1 h2 <;> simp_all
  · simp only [detect_tid_drift, tget, List.find?, String.reduceBEq]
    norm_num <;> simp

/-- Witness for C5 at concrete inputs: an empty 7-day distribution, and
the non-empty example pair. -/
theorem detect_tid_drift_c5_witness :
    detect_tid_drift [] [("Z1", 50)] = "insufficient_data" ∧
    (detect_tid_drift [("Z1", 60), ("Z2", 10), ("Z3", 30)]
        [("Z1", 75), ("Z2", 20), ("Z3", 5)] = "shifting" ↔
      ¬ (15 < tget [("Z1", 60), ("Z2", 10), ("Z3", 30)] "Z2" -
          tget [("Z1", 75), ("Z2", 20), ("Z3", 5)] "Z2") ∧
      15 < max |tget [("Z1", 60), ("Z2", 10), ("Z3", 30)] "Z1" -
          tget [("Z1", 75), ("Z2", 20), ("Z3", 5)] "Z1"|
        (max |tget [("Z1", 60), ("Z2", 10), ("Z3", 30)] "Z2" -
            tget [("Z1", 75), ("Z2", 20), ("Z3", 5)] "Z2"|
          |tget [("Z1", 60), ("Z2", 10), ("Z3", 30)] "Z3" -
            tget [("Z1", 75), ("Z2", 20), ("Z3", 5)] "Z3"|)) :=
  ⟨detect_tid_drift_c5.1 [] [("Z1", 50)] (Or.inl rfl),
   (detect_tid_drift_c5.2.1 [("Z1", 60), ("Z2", 10), ("Z3", 30)]
      [("Z1", 75), ("Z2", 20), ("Z3", 5)] (by simp) (by simp)).2.1⟩

/-- C2: every metric calculator is a total function of its numeric inputs
(each is a Lean function, so no input can raise), every division is
guarded, and each degenerate case returns 0: zero HRV/RHR baseline or zero
RHR ratio, zero CTL, fewer than 2 positive loads, zero standard deviation
(zero sample variance), zero recovery index, zero planned sessions, zero
average HR, zero average power, zero Z2 time, and for decoupling a
mismatched or sub-3600-sample stream pair or a zero first-half ratio;
strain is the bare product with no division to guard. -/
theorem calculators_degenerate_c2 :
    (∀ ht hb rt rb : ℚ, hb = 0 ∨ rb = 0 ∨ rt = 0 →
      calculate_recovery_index ht hb rt rb = 0) ∧
    (∀ atl ctl : ℚ, ctl = 0 → calculate_acwr atl ctl = 0) ∧
    (∀ loads : List ℚ,
      (loads.filter (fun load => decide (0 < load))).length < 2 →
      calculate_monotony loads = 0) ∧
    (∀ loads : List ℚ,
      sampleVar (loads.filter (fun load => decide (0 < load))) = 0 →
      calculate_monotony loads = 0) ∧
    (∀ w ri : ℚ, ri = 0 → calculate_load_recovery_ratio w ri = 0) ∧
    (∀ c p : ℕ, p = 0 → calculate_consistency_index c p = 0) ∧
    (∀ np ahr : ℚ, ahr = 0 → calculate_efficiency_factor np ahr = 0) ∧
    (∀ np ap : ℚ, ap = 0 → calculate_variability_index np ap = 0) ∧
    (∀ m l : ℚ, calculate_strain m l = m * l) ∧
    (∀ zt : List (ℕ × ℤ), zget zt 3 + zget zt 4 = 0 →
      calculate_polarization_index zt = 0) ∧
    (∀ p h : List ℚ, p.length ≠ h.length ∨ p.length < 3600 →
      calculate_decoupling p h = (0, 0, 0)) ∧
    (∀ p h : List ℚ,
      avgPwHrRatio (p.take (p.length / 2)) (h.take (p.length / 2)) = 0 →
      calculate_decoupling p h = (0, 0, 0)) := by
  refine ⟨?_, ?_, ?_, ?_, ?_, ?_, ?_, ?_, ?_, ?_, ?_, ?_⟩
  · intro ht hb rt rb hdeg
    simp only [calculate_recovery_index]
    rcases hdeg with h | h | h
    · rw [if_pos (Or.inl h)]
    · rw [if_pos (Or.inr h)]
    · by_cases hb0 : hb = 0 ∨ rb = 0
      · rw [if_pos hb0]
      · rw [if_neg hb0, if_pos (by rw [h, zero_div])]
  · intro atl ctl h
    simp [calculate_acwr, h]
  · intro loads hshort
    simp only [calculate_monotony]
    split_ifs <;> first | rfl | omega
  · intro loads hvar
    simp only [calculate_monotony]
    split_ifs with h1 h2 h3 <;> first | rfl | exact absurd hvar h3
  · intro w ri h
    simp [calculate_load_recovery_ratio, h]
  · intro c p h
    simp [calculate_consistency_index, h]
  · intro np ahr h
    simp [calculate_efficiency_factor, h]
  · intro np ap h
    simp [calculate_variability_index, h]
  · intro m l
    rfl
  · intro zt h
    simp only [calculate_polarization_index]
    rw [if_pos h]
  · intro p h hdeg
    simp only [calculate_decoupling]
    split_ifs <;> first | rfl | omega
  · intro p h hz
    simp only [calculate_decoupling]
    split_ifs with h1 h2 h3 h4 <;> first | rfl | exact absurd hz h4

/-- Witness for C2: each degenerate case evaluated at a concrete input. -/
theorem calculators_degenerate_c2_witness :
    calculate_recovery_index 1 0 2 3 = 0 ∧
    calculate_acwr 5 0 = 0 ∧
    calculate_monotony [5] = 0 ∧
    calculate_monotony [4, 4] = 0 ∧
    calculate_load_recovery_ratio 300 0 = 0 ∧
    calculate_consistency_index 3 0 = 0 ∧
    calculate_efficiency_factor 200 0 = 0 ∧
    calculate_variability_index 210 0 = 0 ∧
    calculate_strain 2 100 = 2 * 100 ∧
    calculate_polarization_index [(1, 3600)] = 0 ∧
    calculate_decoupling [1] [1, 2] = (0, 0, 0) ∧
    calculate_decoupling [] [] = (0, 0, 0) :=
  ⟨calculators_degenerate_c2.1 1 0 2 3 (Or.inl rfl),
   calculators_degenerate_c2.2.1 5 0 rfl,
   calculators_degenerate_c2.2.2.1 [5] (by norm_num [List.filter]),
   calculators_degenerate_c2.2.2.2.1 [4, 4]
     (by norm_num [List.filter, sampleVar, mean]),
   calculators_degenerate_c2.2.2.2.2.1 300 0 rfl,
   calculators_degenerate_c2.2.2.2.2.2.1 3 0 rfl,
   calculators_degenerate_c2.2.2.2.2.2.2.1 200 0 rfl,
   calculators_degenerate_c2.2.2.2.2.2.2.2.1 210 0 rfl,
   calculators_degenerate_c2.2.2.2.2.2.2.2.2.1 2 100,
   calculators_degenerate_c2.2.2.2.2.2.2.2.2.2.1 [(1, 3600)]
     (by simp [zget, List.find?]),
   calculators_degenerate_c2.2.2.2.2.2.2.2.2.2.2.1 [1] [1, 2]
     (Or.inl (by norm_num)),
   calculators_degenerate_c2.2.2.2.2.2.2.2.2.2.2.2 [] []
     (by norm_num [avgPwHrRatio])⟩

/-- The `severity_order` key is 0 exactly on "alarm". -/
theorem sevord_zero_iff (s : String) : severity_order s = 0 ↔ s = "alarm" := by
  simp only [severity_order]
  split_ifs with h1 h2 <;> simp_all

/-- The `severity_order` key is 1 exactly on "warning". -/
theorem sevord_one_iff (s : String) : severity_order s = 1 ↔ s = "warning" := by
  simp only [severity_order]
  split_ifs with h1 h2 <;> simp_all

/-- Elements of the severity-`k` run map to key `k`. -/
theorem mem_map_sevord_filter {l : List Alert} {k y : ℕ}
    (hy : y ∈ (l.filter (fun a => severity_order a.severity == k)).map
      (fun a => severity_order a.severity)) : y = k := by
  obtain ⟨a, ha, rfl⟩ := List.mem_map.mp hy
  simpa using (List.mem_filter.mp ha).2

/-- C4: for every metrics map the severity keys of `generate_alerts` are
non-decreasing (every alarm precedes every warning), the alarm
subsequence and the warning subsequence each equal the corresponding
subsequence of the rule-evaluation-ordered alert list (so ties keep rule
order), and the single-key map with monotony 2.6 yields exactly one
alert, an alarm on metric "monotony". -/
theorem generate_alerts_c4 :
    (∀ m : Metrics,
      ((generate_alerts m).map (fun a => severity_order a.severity)).Pairwise (· ≤ ·) ∧
      (generate_alerts m).filter (fun a => a.severity == "alarm") =
        (ruleAlerts m).filter (fun a => a.severity == "alarm") ∧
      (generate_alerts m).filter (fun a => a.severity == "warning") =
        (ruleAlerts m).filter (fun a => a.severity == "warning")) ∧
    generate_alerts { monotony := some 2.6 } =
      [⟨"alarm", "load", "monotony", AlertValue.num 2.6, AlertValue.num 2.5,
        "Training monotony too high - add variety"⟩] := by
  constructor
  · intro m
    refine ⟨?_, ?_, ?_⟩
    · simp only [generate_alerts, List.map_append]
      refine List.pairwise_append.mpr
        ⟨List.pairwise_append.mpr ⟨?_, ?_, ?_⟩, ?_, ?_⟩
      · exact List.pairwise_of_forall_mem_list (fun a ha b hb => by
          rw [mem_map_sevord_filter ha, mem_map_sevord_filter hb])
      · exact List.pairwise_of_forall_mem_list (fun a ha b hb => by
          rw [mem_map_sevord_filter ha, mem_map_sevord_filter hb])
      · intro a ha b hb
        rw [mem_map_sevord_filter ha, mem_map_sevord_filter hb]
        omega
      · exact List.pairwise_of_forall_mem_list (fun a ha b hb => by
          rw [mem_map_sevord_filter ha, mem_map_sevord_filter hb])
      · intro a ha b hb
        rw [mem_map_sevord_filter hb]
        rcases List.mem_append.mp ha with h | h
        · rw [mem_map_sevord_filter h]; omega
        · rw [mem_map_sevord_filter h]; omega
    · have e0 : (ruleAlerts m).filter (fun a =>
          (a.severity == "alarm") && (severity_order a.severity == 0)) =
          (ruleAlerts m).filter (fun a => a.severity == "alarm") := by
        apply List.filter_congr
        intro a _
        by_cases h : a.severity = "alarm"
        · simp [h, severity_order]
        · simp [h]
      have e1 : (ruleAlerts m).filter (fun a =>
          (a.severity == "alarm") && (severity_order a.severity == 1)) = [] := by
        rw [List.filter_eq_nil_iff]
        intro a _
        by_cases h : a.severity = "alarm" <;> simp [h, severity_order]
      have e2 : (ruleAlerts m).filter (fun a =>
          (a.severity == "alarm") && (severity_order a.severity == 2)) = [] := by
        rw [List.filter_eq_nil_iff]
        intro a _
        by_cases h : a.severity = "alarm" <;> simp [h, severity_order]
      simp only [generate_alerts, List.filter_append, List.filter_filter]
      rw [e0, e1, e2, List.append_nil, List.append_nil]
    · have e0 : (ruleAlerts m).filter (fun a =>
          (a.severity == "warning") && (severity_order a.severity == 0)) = [] := by
        rw [List.filter_eq_nil_iff]
        intro a _
        by_cases h : a.severity = "warning" <;> simp [h, severity_order]
      have e1 : (ruleAlerts m).filter (fun a =>
          (a.severity == "warning") && (severity_order a.severity == 1)) =
          (ruleAlerts m).filter (fun a => a.severity == "warning") := by
        apply List.filter_congr
        intro a _
        by_cases h : a.severity = "warning"
        · simp [h, severity_order]
        · simp [h]
      have e2 : (ruleAlerts m).filter (fun a =>
          (a.severity == "warning") && (severity_order a.severity == 2)) = [] := by
        rw [List.filter_eq_nil_iff]
        intro a _
        by_cases h : a.severity = "warning" <;> simp [h, severity_order]
      simp only [generate_alerts, List.filter_append, List.filter_filter]
      rw [e0, e1, e2, List.nil_append, List.append_nil]
  · norm_num [generate_alerts, ruleAlerts, severity_order, pyRound, pyRoundInt] <;> simp

/-- Entry `i` of the daily tier is the day builder applied to day
`today - (days - i - 1)`. -/
theorem build_daily_tier_getD (acts : List Activity) (well : List DayWellness)
    (today : ℤ) (days : ℕ) (i : ℕ) (hi : i < days) :
    (build_daily_tier acts well today days).getD i emptyEntry =
      dailyEntryFor acts well (today - ((days : ℤ) - i - 1)) := by
  simp only [build_daily_tier, List.getD_eq_getElem?_getD, List.getElem?_map,
    List.getElem?_range hi, Option.map_some', Option.getD_some]

/-- The date slot of a built daily entry is its day index. -/
theorem dailyEntryFor_date (acts : List Activity) (well : List DayWellness)
    (d : ℤ) : (dailyEntryFor acts well d).date = d := rfl

/-- C8: for every activity and wellness list, `build_daily_tier` over 90
days returns exactly 90 entries, and entry `i` (0-based) is dated
`today - 89 + i` — consecutive calendar days, oldest first, ending at the
snapshot's "today", regardless of data present. -/
theorem build_daily_tier_c8 (acts : List Activity) (well : List DayWellness)
    (today : ℤ) :
    (build_daily_tier acts well today 90).length = 90 ∧
    ∀ i : ℕ, i < 90 →
      ((build_daily_tier acts well today 90).getD i emptyEntry).date =
        today - 89 + i := by
  constructor
  · simp [build_daily_tier]
  · intro i hi
    rw [build_daily_tier_getD acts well today 90 i hi, dailyEntryFor_date]
    push_cast
    ring

/-- Witness for C8 with both conjuncts instantiated at empty data. -/
theorem build_daily_tier_c8_witness :
    (build_daily_tier [] [] 0 90).length = 90 ∧
    ((build_daily_tier [] [] 0 90).getD 5 emptyEntry).date = 0 - 89 + 5 :=
  ⟨(build_daily_tier_c8 [] [] 0).1,
   (build_daily_tier_c8 [] [] 0).2 5 (by norm_num)⟩

/-- The phase slot is non-null exactly when CTL, ATL and TSB are all
present and non-zero (Python truthy), and then equals the phase detector
applied to them. -/
theorem dayPhase_spec (dw : Option DayWellness) :
    (dayPhase dw ≠ none ↔
      truthyQ (dw.bind (·.ctl)) = true ∧ truthyQ (dw.bind (·.atl)) = true ∧
        truthyQ (dw.bind (·.tsb)) = true) ∧
    (∀ w c a t, dw = some w → w.ctl = some c → w.atl = some a →
      w.tsb = some t → c ≠ 0 → a ≠ 0 → t ≠ 0 →
      dayPhase dw = some (detect_training_phase c a t)) := by
  cases dw with
  | none =>
    refine ⟨by simp [dayPhase, truthyQ], ?_⟩
    intro w c a t hw
    exact Option.noConfusion hw
  | some w =>
    obtain ⟨wid, wctl, watl, wtsb, wrr, whrv, whrvr, wrhr, wwt, wss⟩ := w
    cases wctl with
    | none =>
      refine ⟨by simp [dayPhase, truthyQ], ?_⟩
      rintro w' c' a' t' hw hc ha ht
      obtain rfl := Option.some.inj hw
      exact absurd hc (by simp)
    | some c =>
      cases watl with
      | none =>
        refine ⟨by simp [dayPhase, truthyQ], ?_⟩
        rintro w' c' a' t' hw hc ha ht
        obtain rfl := Option.some.inj hw
        exact absurd ha (by simp)
      | some a =>
        cases wtsb with
        | none =>
          refine ⟨by simp [dayPhase, truthyQ], ?_⟩
          rintro w' c' a' t' hw hc ha ht
          obtain rfl := Option.some.inj hw
          exact absurd ht (by simp)
        | some t =>
          by_cases hz : c ≠ 0 ∧ a ≠ 0 ∧ t ≠ 0
          · refine ⟨by simp [dayPhase, truthyQ, hz.1, hz.2.1, hz.2.2], ?_⟩
            intro w' c' a' t' hw hc ha ht _ _ _
            obtain rfl := Option.some.inj hw
            obtain rfl := Option.some.inj hc
            obtain rfl := Option.some.inj ha
            obtain rfl := Option.some.inj ht
            simp [dayPhase, hz]
          · refine ⟨by
              simp only [dayPhase, if_neg hz]
              simp [truthyQ]
              tauto, ?_⟩
            intro w' c' a' t' hw hc ha ht hc0 ha0 ht0
            obtain rfl := Option.some.inj hw
            obtain rfl := Option.some.inj hc
            obtain rfl := Option.some.inj ha
            obtain rfl := Option.some.inj ht
            exact absurd ⟨hc0, ha0, ht0⟩ hz

/-- C9 (amended): in the 90-day daily tier an entry carries a non-null
phase if and only if that day's wellness record exists and its CTL, ATL
and TSB are all present and non-zero (Python truthiness — a present but
zero value yields a null phase); when they are present and non-zero the
phase equals `detect_training_phase` applied to them. -/
theorem daily_phase_c9_amended (acts : List Activity) (well : List DayWellness)
    (today : ℤ) (i : ℕ) (hi : i < 90) :
    (((build_daily_tier acts well today 90).getD i emptyEntry).phase ≠ none ↔
      truthyQ ((well.find? (fun w => w.id == today - 89 + i)).bind (·.ctl)) = true ∧
      truthyQ ((well.find? (fun w => w.id == today - 89 + i)).bind (·.atl)) = true ∧
      truthyQ ((well.find? (fun w => w.id == today - 89 + i)).bind (·.tsb)) = true) ∧
    (∀ w c a t, well.find? (fun w => w.id == today - 89 + i) = some w →
      w.ctl = some c → w.atl = some a → w.tsb = some t →
      c ≠ 0 → a ≠ 0 → t ≠ 0 →
      ((build_daily_tier acts well today 90).getD i emptyEntry).phase =
        some (detect_training_phase c a t)) := by
  have hdate : today - ((90 : ℤ) - (i : ℤ) - 1) = today - 89 + i := by
    push_cast
    ring
  have hentry : (build_daily_tier acts well today 90).getD i emptyEntry =
      dailyEntryFor acts well (today - 89 + i) := by
    rw [build_daily_tier_getD acts well today 90 i hi]
    congr 1
  have hphase : (dailyEntryFor acts well (today - 89 + i)).phase =
      dayPhase (well.find? (fun w => w.id == today - 89 + i)) := rfl
  rw [hentry, hphase]
  exact dayPhase_spec (well.find? (fun w => w.id == today - 89 + i))

/-- Witness for C9 (amended) on a one-record wellness list whose CTL 50,
ATL 50 and TSB 10 are all non-zero: the entry for that day has phase
"Base". -/
theorem daily_phase_c9_amended_witness :
    ((build_daily_tier [] [{ id := 0, ctl := some 50, atl := some 50, tsb := some 10 }] 0 90).getD 89 emptyEntry).phase =
      some (detect_training_phase 50 50 10) :=
  (daily_phase_c9_amended [] [{ id := 0, ctl := some 50, atl := some 50, tsb := some 10 }] 0 89 (by norm_num)).2
    { id := 0, ctl := some 50, atl := some 50, tsb := some 10 } 50 50 10
    (by simp [List.find?]) rfl rfl rfl (by norm_num) (by norm_num) (by norm_num)

/-- C9 (counterexample): a wellness record for "today" with CTL present
but equal to 0 (ATL 50, TSB −50 present) gets a null phase in the 90-day
daily tier, although all three values are present — the claimed
"non-null iff present" fails on present-but-zero values. -/
theorem daily_phase_c9_counterexample :
    ((build_daily_tier [] [{ id := 0, ctl := some 0, atl := some 50, tsb := some (-50) }] 0 90).getD 89 emptyEntry).phase = none ∧
    (([{ id := 0, ctl := some 0, atl := some 50, tsb := some (-50) }] :
        List DayWellness).find? (fun w => w.id == (0 : ℤ) - 89 + 89)) =
      some { id := 0, ctl := some 0, atl := some 50, tsb := some (-50) } := by
  constructor
  · have h := build_daily_tier_getD ([] : List Activity)
      [{ id := 0, ctl := some 0, atl := some 50, tsb := some (-50) }] 0 90 89 (by norm_num)
    rw [h]
    norm_num [dailyEntryFor, dayPhase, List.find?]
  · simp [List.find?]

/-- The phase detector only ever returns one of five non-empty labels. -/
theorem detect_training_phase_ne_empty (ctl atl tsb : ℚ) (c7 : Option ℚ)
    (rt : Option String) : detect_training_phase ctl atl tsb c7 rt ≠ "" := by
  simp only [detect_training_phase]
  split_ifs <;> simp

/-- One `detect_phase_markers` loop step preserves the invariant when the
incoming entry has a non-empty date. -/
theorem pmStep_inv (s : PMState) (e : PRec) (hInv : PMInv s) (hid : e.id ≠ "") :
    PMInv (pmStep s e) := by
  obtain ⟨eid, ectl, eatl⟩ := e
  simp only [PRec.id] at hid
  simp only [pmStep]
  cases ectl with
  | none => exact hInv
  | some c =>
    cases eatl with
    | none => exact hInv
    | some a =>
      dsimp only
      by_cases hz : c ≠ 0 ∧ a ≠ 0
      · rw [if_pos hz]
        by_cases hne : some (detect_training_phase c a (c - a)) ≠ s.current_phase
        · rw [if_pos hne]
          rcases hInv with ⟨h1, h2, h3⟩ | ⟨cp, ps, hcp, hps, hcpne, hpsne, hchain, hlastm⟩
          · refine Or.inr ⟨detect_training_phase c a (c - a), eid, rfl, rfl,
              detect_training_phase_ne_empty _ _ _ _ _, hid, ?_, ?_⟩
            · rw [h1]
              simp [truthyS, h3]
            · rw [h1]
              simp [truthyS, h3]
          · rw [hcp, hps]
            rw [if_pos ⟨by simp [truthyS, hcpne], by simp [truthyS, hpsne]⟩]
            refine Or.inr ⟨detect_training_phase c a (c - a), eid, rfl, rfl,
              detect_training_phase_ne_empty _ _ _ _ _, hid, ?_, ?_⟩
            · refine List.chain'_append.mpr ⟨hchain, List.chain'_singleton _, ?_⟩
              intro x hx y hy
              have hx' := hlastm x hx
              simp only [List.head?_cons, Option.mem_def, Option.some.injEq] at hy
              subst hy
              exact ⟨hx'.2, hx'.1⟩
            · intro m hm
              rw [List.getLast?_concat] at hm
              obtain rfl := Option.some.inj hm
              have : detect_training_phase c a (c - a) ≠ cp := by
                intro h
                exact hne (by rw [h, hcp])
              exact ⟨rfl, fun h => this h.symm⟩
        · rw [if_neg hne]
          exact hInv
      · rw [if_neg hz]
        exact hInv

/-- The fold of `pmStep` preserves the invariant. -/
theorem pmFold_inv (l : List PRec) (s : PMState) (hs : PMInv s)
    (hl : ∀ e ∈ l, e.id ≠ "") : PMInv (l.foldl pmStep s) := by
  induction l generalizing s with
  | nil => exact hs
  | cons e t ih =>
    exact ih (pmStep s e) (pmStep_inv s e hs (hl e (by simp)))
      (fun x hx => hl x (by simp [hx]))

/-- C10 (amended): for every wellness list whose entries carry non-empty
dates, the markers of `detect_phase_markers` satisfy: consecutive markers
have different phase labels and each non-final marker's end date is the
next marker's start date (`markerRel` chain), and the final marker (when
one exists) ends at the date of the last wellness entry. -/
theorem detect_phase_markers_c10_amended (wellness : List PRec)
    (activities : List Activity) (hids : ∀ e ∈ wellness, e.id ≠ "") :
    List.Chain' markerRel (detect_phase_markers wellness activities) ∧
    (∀ m, (detect_phase_markers wellness activities).getLast? = some m →
      ∃ le, wellness.getLast? = some le ∧ m.end_date = le.id) := by
  have hfold : PMInv (wellness.foldl pmStep ⟨none, none, []⟩) :=
    pmFold_inv wellness ⟨none, none, []⟩ (Or.inl ⟨rfl, rfl, rfl⟩) hids
  simp only [detect_phase_markers]
  cases hlast : wellness.getLast? with
  | none =>
    have hnil : wellness = [] := by
      cases wellness with
      | nil => rfl
      | cons x xs => simp [List.getLast?_concat] at hlast
    subst hnil
    simp
  | some le =>
    rcases hfold with ⟨h1, h2, h3⟩ | ⟨cp, ps, hcp, hps, hcpne, hpsne, hchain, hlastm⟩
    · rw [h1]
      simp [truthyS, h3]
    · rw [hcp, hps]
      dsimp only
      rw [if_pos ⟨by simp [truthyS, hcpne], by simp [truthyS, hpsne]⟩]
      constructor
      · refine List.chain'_append.mpr ⟨hchain, List.chain'_singleton _, ?_⟩
        intro x hx y hy
        have hx' := hlastm x hx
        simp only [List.head?_cons, Option.mem_def, Option.some.injEq] at hy
        subst hy
        exact ⟨hx'.2, hx'.1⟩
      · intro m hm
        rw [List.getLast?_concat] at hm
        obtain rfl := Option.some.inj hm
        exact ⟨le, rfl, rfl⟩

/-- Witness for C10 (amended) on a concrete two-entry wellness list
(phases Base then Build). -/
theorem detect_phase_markers_c10_witness :
    List.Chain' markerRel (detect_phase_markers
      [⟨"2024-01-01", some 50, some 50⟩, ⟨"2024-01-02", some 100, some 95⟩] []) :=
  (detect_phase_markers_c10_amended
    [⟨"2024-01-01", some 50, some 50⟩, ⟨"2024-01-02", some 100, some 95⟩] []
    (by intro e he; simp at he; rcases he with rfl | rfl <;> simp)).1

/-- C10 (counterexample): with an entry whose date is empty/missing (Python
falsy), the skipped marker append produces two consecutive markers with the
same phase "Base" whose end/start dates do not chain — the claimed
invariants fail for such a wellness list. -/
theorem detect_phase_markers_c10_counterexample :
    detect_phase_markers [⟨"2024-01-01", some 50, some 50⟩, ⟨"", some 100, some 95⟩,
        ⟨"2024-01-03", some 50, some 50⟩] [] =
      [⟨"2024-01-01", "", "Base"⟩, ⟨"2024-01-03", "2024-01-03", "Base"⟩] ∧
    ¬ markerRel ⟨"2024-01-01", "", "Base"⟩ ⟨"2024-01-03", "2024-01-03", "Base"⟩ := by
  constructor
  · norm_num [detect_phase_markers, pmStep, detect_training_phase, truthyS,
      List.foldl] <;> simp
  · intro hrel
    exact hrel.1 rfl

end IntervalsMCP
